import Mathlib

/-!
Shallow embedding of the cart and order lifecycle engine of the
pelzsecret e-commerce backend (cart controllers, order controllers and
the mongoose schemas), together with theorems settling the frozen
claims about it.

Modelling conventions:
* JS numbers holding money are modelled as exact rationals (`ℚ`);
  `Number(x.toFixed(2))` is modelled as rounding the exact value to two
  decimals with ties going to the larger candidate, which is what the
  ECMA-262 `toFixed` algorithm does on the exact value of its receiver.
* Quantities are `ℕ`, timestamps are `ℤ` milliseconds.  A cart fresh
  from `Cart.create` has no `updatedAt` (the schema declares the field
  without a default), hence `updatedAt : Option ℤ`; `isCartExpired`
  on a missing date is `false` (comparison with an Invalid Date).
* Statuses are strings, exactly as in the mongoose documents.
* The `unique : true` indexes of the schemas (`Cart.sessionId`,
  `Order.orderNumber`) are enforced at insertion, as mongoose with its
  default `autoIndex` does: inserting a duplicate raises a duplicate
  key error, surfaced as a 500 by the surrounding handler.
* Each controller becomes a function from a store (persisted carts,
  orders, products) and request data to the pair of the store after the
  request and either an `HErr` (the thrown `HttpError`) or the value
  sent in the 200/201 response.
-/

/-- An `HttpError`: HTTP status code and message. -/
structure HErr where
  status : Nat
  msg : String
deriving Repr, DecidableEq

/-- A cart line item (mongoose subdocument of `cartSchema.items`):
subdocument identity, product reference, optional variant reference,
quantity and unit price snapshot. -/
structure CartItem where
  id : Nat
  product : Nat
  variant : Option Nat
  quantity : Nat
  price : ℚ
deriving Repr, DecidableEq

/-- The `totals` subdocument of a cart. -/
structure Totals where
  subtotal : ℚ
  tax : ℚ
  total : ℚ
deriving Repr, DecidableEq

/-- A persisted cart document. -/
structure Cart where
  sessionId : String
  items : List CartItem
  status : String
  totals : Totals
  updatedAt : Option ℤ
deriving Repr, DecidableEq

/-- A persisted product document: the fields the cart controllers read
(`price`, `isActive`, `inventory.quantity`, `inventory.reserved`). -/
structure Product where
  id : Nat
  price : ℚ
  isActive : Bool
  invQuantity : ℤ
  invReserved : ℤ
deriving Repr, DecidableEq

/-- The `shipping` input of order creation. -/
structure Shipping where
  method : String
  cost : ℚ
deriving Repr, DecidableEq

/-- A persisted order document (the fields the controllers touch). -/
structure Order where
  orderNumber : String
  customer : String
  items : List CartItem
  subtotal : ℚ
  tax : ℚ
  shipping : Shipping
  total : ℚ
  status : String
  paymentStatus : String
  paymentMethod : String
deriving Repr, DecidableEq

/-- The persisted state the controllers act on. -/
structure Store where
  carts : List Cart
  orders : List Order
  products : List Product
deriving Repr, DecidableEq

/-- `Number(x.toFixed(2))`: round the exact value to two decimal
places, ties to the larger candidate (round half up). -/
def toFixed2 (q : ℚ) : ℚ := ((q * 100 + 1 / 2).floor : ℤ) / 100

/-- `CART_EXPIRATION_HOURS` expressed in milliseconds. -/
def cartExpirationMs : ℤ := 24 * 60 * 60 * 1000

/-- `MAX_ITEMS_PER_CART`. -/
def maxItemsPerCart : Nat := 50

/-- `MIN_QUANTITY_PER_ITEM`. -/
def minQuantityPerItem : Nat := 1

/-- `MAX_QUANTITY_PER_ITEM`. -/
def maxQuantityPerItem : Nat := 10

/-- The raw (unrounded) subtotal: `items.reduce((sum, item) =>
sum + item.price * item.quantity, 0)`. -/
def rawSubtotal (items : List CartItem) : ℚ :=
  items.foldl (fun sum item => sum + item.price * (item.quantity : ℚ)) 0

/-- `calculateCartTotals`: subtotal, 10% tax and total, each rounded to
two decimals. -/
def calculateCartTotals (items : List CartItem) : Totals :=
  let subtotal := rawSubtotal items
  let taxRate : ℚ := 1 / 10
  let tax := subtotal * taxRate
  let total := subtotal + tax
  { subtotal := toFixed2 subtotal
    tax := toFixed2 tax
    total := toFixed2 total }

/-- `isCartExpired`: `new Date() > updatedAt + 24h`.  A cart with no
`updatedAt` (fresh from `Cart.create`) compares against an Invalid
Date, which is never exceeded. -/
def isCartExpired (cart : Cart) (now : ℤ) : Bool :=
  match cart.updatedAt with
  | none => false
  | some t => decide (now > t + cartExpirationMs)

/-- `Cart.findOne({ sessionId })`. -/
def Store.findCart (st : Store) (sessionId : String) : Option Cart :=
  st.carts.find? (fun c => c.sessionId == sessionId)

/-- `Cart.findOne({ sessionId, status: "active" })`. -/
def Store.findActiveCart (st : Store) (sessionId : String) : Option Cart :=
  st.carts.find? (fun c => c.sessionId == sessionId && c.status == "active")

/-- `Product.findById`. -/
def Store.findProduct (st : Store) (productId : Nat) : Option Product :=
  st.products.find? (fun p => p.id == productId)

/-- `Order.findOne({ orderNumber })`. -/
def Store.findOrder (st : Store) (orderNumber : String) : Option Order :=
  st.orders.find? (fun o => o.orderNumber == orderNumber)

/-- Persist a modified cart document (`cart.save()` /
`findByIdAndUpdate`): replace the stored cart with the same session id.
Session ids are unique in the store (schema index), so this reaches
exactly the intended document. -/
def Store.saveCart (st : Store) (cart : Cart) : Store :=
  { st with
    carts := st.carts.map (fun c => if c.sessionId == cart.sessionId then cart else c) }

/-- `Cart.findOneAndDelete({ sessionId })`. -/
def Store.deleteCart (st : Store) (sessionId : String) : Store :=
  { st with carts := st.carts.filter (fun c => !(c.sessionId == sessionId)) }

/-- `Cart.create`: the schema holds a `unique : true` index on
`sessionId`, so inserting a second cart for an existing session id
raises a duplicate key error. -/
def Store.createCartDoc (st : Store) (cart : Cart) : Except HErr Store :=
  if st.carts.any (fun c => c.sessionId == cart.sessionId) then
    .error ⟨500, "E11000 duplicate key error"⟩
  else
    .ok { st with carts := st.carts ++ [cart] }

/-- `Order.create`: the schema holds a `unique : true` index on
`orderNumber`, so inserting a duplicate order number raises a duplicate
key error. -/
def Store.createOrderDoc (st : Store) (order : Order) : Except HErr Store :=
  if st.orders.any (fun o => o.orderNumber == order.orderNumber) then
    .error ⟨500, "E11000 duplicate key error"⟩
  else
    .ok { st with orders := st.orders ++ [order] }

/-- Persist a modified order document (`order.save()`), keyed by order
number. -/
def Store.saveOrder (st : Store) (order : Order) : Store :=
  { st with
    orders := st.orders.map (fun o => if o.orderNumber == order.orderNumber then order else o) }

/-- `findByIdAndUpdate` on a cart: update the fields of the stored
document with the given session id. -/
def Store.updateCartFields (st : Store) (sessionId : String) (f : Cart → Cart) : Store :=
  { st with carts := st.carts.map (fun c => if c.sessionId == sessionId then f c else c) }

/-- The cart document produced by `createCartController`'s
`Cart.create` call: empty items, `active`, zero totals, and no
`updatedAt` (the schema gives that field no default). -/
def freshCart (sessionId : String) : Cart :=
  { sessionId := sessionId
    items := []
    status := "active"
    totals := { subtotal := 0, tax := 0, total := 0 }
    updatedAt := none }

/-- `createCartController`. -/
def createCart (st : Store) (now : ℤ) (sessionId : Option String) :
    Store × Except HErr Cart :=
  match sessionId with
  | none => (st, .error ⟨400, "Session ID is required"⟩)
  | some sid =>
    match st.findCart sid with
    | some existingCart =>
      if isCartExpired existingCart now then
        -- mark the old cart expired, then fall through to `Cart.create`
        let st1 := st.updateCartFields sid
          (fun c => { c with status := "expired", updatedAt := some now })
        match st1.createCartDoc (freshCart sid) with
        | .error e => (st1, .error e)
        | .ok st2 => (st2, .ok (freshCart sid))
      else
        (st, .error ⟨400, "Active cart already exists for this session"⟩)
    | none =>
      match st.createCartDoc (freshCart sid) with
      | .error e => (st, .error e)
      | .ok st2 => (st2, .ok (freshCart sid))

/-- The matching predicate of the merge loop:
`item.product === sourceItem.product && (!sourceItem.variant ||
item.variant?.toString() === sourceItem.variant?.toString())`. -/
def mergeMatches (sourceItem item : CartItem) : Bool :=
  item.product == sourceItem.product &&
    (sourceItem.variant.isNone || item.variant == sourceItem.variant)

/-- Replace the first element satisfying `p` by its image under `f`
(the in-place mutation of the found subdocument). -/
def updateFirstMatch (p : CartItem → Bool) (f : CartItem → CartItem) :
    List CartItem → List CartItem
  | [] => []
  | item :: rest =>
    if p item then f item :: rest else item :: updateFirstMatch p f rest

/-- One iteration of the merge loop over a source item: sum quantities
capped at `MAX_QUANTITY_PER_ITEM` on a match, otherwise append unless
the target already holds `MAX_ITEMS_PER_CART` items. -/
def mergeStep (items : List CartItem) (sourceItem : CartItem) : List CartItem :=
  if (items.find? (mergeMatches sourceItem)).isSome then
    updateFirstMatch (mergeMatches sourceItem)
      (fun item =>
        { item with quantity := min (item.quantity + sourceItem.quantity) maxQuantityPerItem })
      items
  else if maxItemsPerCart ≤ items.length then
    items
  else
    items ++ [sourceItem]

/-- `mergeCartsController`. -/
def mergeCarts (st : Store) (now : ℤ)
    (sourceSessionId targetSessionId : Option String) :
    Store × Except HErr Cart :=
  match sourceSessionId, targetSessionId with
  | some src, some tgt =>
    match st.findActiveCart src, st.findActiveCart tgt with
    | some sourceCart, some targetCart =>
      let mergedItems := sourceCart.items.foldl mergeStep targetCart.items
      let updatedCart :=
        { targetCart with
          items := mergedItems
          totals := calculateCartTotals mergedItems
          updatedAt := some now }
      let st1 := st.saveCart updatedCart
      let st2 := st1.updateCartFields src
        (fun c => { c with status := "merged", updatedAt := some now })
      (st2, .ok updatedCart)
    | _, _ => (st, .error ⟨404, "Source or target cart not found"⟩)
  | _, _ =>
    (st, .error ⟨400, "Both source and target session IDs are required"⟩)

/-- `getCartBySessionController`.  The availability pass of the source
filters `cart.items` with an `async` predicate; an `async` function
returns a Promise, which is truthy for every element, so the filter
keeps every item, and `needsUpdate` is still `false` when it is tested
(the predicate bodies have not run past their first `await` yet).  The
whole pass therefore leaves the cart untouched. -/
def getCartBySession (st : Store) (now : ℤ) (sessionId : String) :
    Store × Except HErr Cart :=
  match st.findCart sessionId with
  | none => (st, .error ⟨404, "Cart not found"⟩)
  | some cart =>
    if isCartExpired cart now then
      (st.saveCart { cart with status := "expired" },
        .error ⟨400, "Cart has expired"⟩)
    else
      (st, .ok cart)

/-- The matching predicate of `addCartItemController`:
`item.product.toString() === productId && (!variantId ||
item.variant?.toString() === variantId)`. -/
def addMatches (productId : Nat) (variantId : Option Nat) (item : CartItem) : Bool :=
  item.product == productId && (variantId.isNone || item.variant == variantId)

/-- A fresh subdocument id for a pushed item (mongoose mints a new
`_id`); any id distinct from the existing ones. -/
def freshItemId (items : List CartItem) : Nat :=
  (items.map CartItem.id).foldl max 0 + 1

/-- `addCartItemController`. -/
def addCartItem (st : Store) (now : ℤ) (sessionId : String)
    (productId : Option Nat) (quantity : Nat) (variantId : Option Nat) :
    Store × Except HErr Cart :=
  match productId with
  | none => (st, .error ⟨400, "Product ID is required"⟩)
  | some pid =>
    if quantity < minQuantityPerItem || maxQuantityPerItem < quantity then
      (st, .error ⟨400, "Quantity must be between 1 and 10"⟩)
    else
      match st.findCart sessionId with
      | none => (st, .error ⟨404, "Cart not found"⟩)
      | some cart =>
        if isCartExpired cart now then
          (st.saveCart { cart with status := "expired" },
            .error ⟨400, "Cart has expired"⟩)
        else if !(cart.status == "active") then
          (st, .error ⟨400, "Cart is no longer active"⟩)
        else if maxItemsPerCart ≤ cart.items.length then
          (st, .error ⟨400, "Cart cannot contain more than 50 items"⟩)
        else
          match st.findProduct pid with
          | none => (st, .error ⟨404, "Product not found"⟩)
          | some product =>
            if !product.isActive then
              (st, .error ⟨404, "Product is inactive"⟩)
            else
              let availableQuantity := product.invQuantity - product.invReserved
              if availableQuantity < (quantity : ℤ) then
                (st, .error ⟨400,
                  "Only " ++ toString availableQuantity ++ " items available"⟩)
              else
                match cart.items.find? (addMatches pid variantId) with
                | some item =>
                  let newQuantity := item.quantity + quantity
                  if maxQuantityPerItem < newQuantity then
                    (st, .error ⟨400, "Cannot add more than 10 units of an item"⟩)
                  else
                    let newItems := updateFirstMatch (addMatches pid variantId)
                      (fun it => { it with quantity := newQuantity }) cart.items
                    let updatedCart :=
                      { cart with
                        items := newItems
                        totals := calculateCartTotals newItems
                        updatedAt := some now }
                    (st.saveCart updatedCart, .ok updatedCart)
                | none =>
                  let newItems := cart.items ++
                    [{ id := freshItemId cart.items
                       product := pid
                       variant := variantId
                       quantity := quantity
                       price := product.price }]
                  let updatedCart :=
                    { cart with
                      items := newItems
                      totals := calculateCartTotals newItems
                      updatedAt := some now }
                  (st.saveCart updatedCart, .ok updatedCart)

/-- `updateCartItemController`. -/
def updateCartItem (st : Store) (now : ℤ) (sessionId : String)
    (itemId : Nat) (quantity : Nat) : Store × Except HErr Cart :=
  if quantity < minQuantityPerItem || maxQuantityPerItem < quantity then
    (st, .error ⟨400, "Quantity must be between 1 and 10"⟩)
  else
    match st.findCart sessionId with
    | none => (st, .error ⟨404, "Cart not found"⟩)
    | some cart =>
      if isCartExpired cart now then
        (st.saveCart { cart with status := "expired" },
          .error ⟨400, "Cart has expired"⟩)
      else if !(cart.status == "active") then
        (st, .error ⟨400, "Cart is no longer active"⟩)
      else
        match cart.items.find? (fun it => it.id == itemId) with
        | none => (st, .error ⟨404, "Item not found in cart"⟩)
        | some cartItem =>
          match st.findProduct cartItem.product with
          | none => (st, .error ⟨404, "Product no longer available"⟩)
          | some product =>
            if !product.isActive then
              (st, .error ⟨404, "Product no longer available"⟩)
            else
              let availableQuantity := product.invQuantity - product.invReserved
              if availableQuantity < (quantity : ℤ) then
                (st, .error ⟨400,
                  "Only " ++ toString availableQuantity ++ " items available"⟩)
              else
                let newItems := updateFirstMatch (fun it => it.id == itemId)
                  (fun it => { it with quantity := quantity }) cart.items
                let updatedCart :=
                  { cart with
                    items := newItems
                    totals := calculateCartTotals newItems
                    updatedAt := some now }
                (st.saveCart updatedCart, .ok updatedCart)

/-- `removeCartItemController` (`splice` at the found index removes the
first item with the given subdocument id). -/
def removeCartItem (st : Store) (now : ℤ) (sessionId : String)
    (itemId : Nat) : Store × Except HErr Cart :=
  match st.findCart sessionId with
  | none => (st, .error ⟨404, "Cart not found"⟩)
  | some cart =>
    if isCartExpired cart now then
      (st.saveCart { cart with status := "expired" },
        .error ⟨400, "Cart has expired"⟩)
    else if !(cart.status == "active") then
      (st, .error ⟨400, "Cart is no longer active"⟩)
    else if (cart.items.find? (fun it => it.id == itemId)).isNone then
      (st, .error ⟨404, "Item not found in cart"⟩)
    else
      let newItems := cart.items.eraseP (fun it => it.id == itemId)
      let updatedCart :=
        { cart with
          items := newItems
          totals := calculateCartTotals newItems
          updatedAt := some now }
      (st.saveCart updatedCart, .ok updatedCart)

/-- `clearCartController`.  The HTTP response is only a message; the
returned value here is the cart as persisted. -/
def clearCart (st : Store) (now : ℤ) (sessionId : String) :
    Store × Except HErr Cart :=
  match st.findCart sessionId with
  | none => (st, .error ⟨404, "Cart not found"⟩)
  | some cart =>
    if isCartExpired cart now then
      (st.saveCart { cart with status := "expired" },
        .error ⟨404, "Cart has expired"⟩)
    else if !(cart.status == "active") then
      (st, .error ⟨404, "Cart is no longer active"⟩)
    else
      let updatedCart :=
        { cart with
          items := []
          totals := { subtotal := 0, tax := 0, total := 0 }
          updatedAt := some now }
      (st.saveCart updatedCart, .ok updatedCart)

/-- `` `ORD-${Date.now()}` ``. -/
def genOrderNumber (now : ℤ) : String := "ORD-" ++ toString now

/-- The order-context tax rate. -/
def orderTaxRate : ℚ := 9 / 100

/-- `createOrderController`.  The duplicate key error raised by
`Order.create` on a colliding order number is caught by the
surrounding `try`/`catch` and surfaced as a 500, with the cart left in
place; on success the source cart is deleted only after the order has
been persisted. -/
def createOrder (st : Store) (now : ℤ) (sessionId : Option String)
    (customer : Option String) (paymentMethod : Option String)
    (shipping : Option Shipping) : Store × Except HErr Order :=
  match sessionId, customer, paymentMethod, shipping with
  | some sid, some cust, some pm, some ship =>
    match st.findCart sid with
    | none => (st, .error ⟨404, "Cart not found or empty"⟩)
    | some cart =>
      if cart.items.isEmpty then
        (st, .error ⟨404, "Cart not found or empty"⟩)
      else
        let subtotal := rawSubtotal cart.items
        let tax := subtotal * orderTaxRate
        let total := subtotal + tax + ship.cost
        let order : Order :=
          { orderNumber := genOrderNumber now
            customer := cust
            items := cart.items
            subtotal := subtotal
            tax := tax
            shipping := ship
            total := total
            status := "pending"
            paymentStatus := "pending"
            paymentMethod := pm }
        match st.createOrderDoc order with
        | .error _ => (st, .error ⟨500, "Failed to create order"⟩)
        | .ok st1 => (st1.deleteCart sid, .ok order)
  | _, _, _, _ => (st, .error ⟨400, "Missing required fields"⟩)

/-- `getOrderByNumberController`. -/
def getOrderByNumber (st : Store) (orderNumber : String) :
    Store × Except HErr Order :=
  match st.findOrder orderNumber with
  | none =>
    (st, .error ⟨404, "No order found with order number: " ++ orderNumber⟩)
  | some order => (st, .ok order)

/-- The `validStatuses` list of `updateOrderStatusController`, which is
also the `orderSchema.status` enum. -/
def validOrderStatuses : List String :=
  ["pending", "processing", "shipped", "delivered", "cancelled"]

/-- The `validPaymentStatuses` list of
`updatePaymentStatusController`. -/
def validPaymentStatuses : List String :=
  ["pending", "processing", "paid", "failed", "refunded", "refund_pending"]

/-- The `orderSchema.paymentStatus` enum, strictly smaller than the
controller's `validPaymentStatuses` list; `order.save()` runs this
enum validator. -/
def schemaPaymentStatuses : List String := ["pending", "paid", "failed"]

/-- `order.save()`: mongoose validates the document against the schema
enums before persisting; a validation failure is surfaced as a 500. -/
def Store.saveOrderValidated (st : Store) (order : Order) :
    Store × Except HErr Order :=
  if validOrderStatuses.contains order.status &&
      schemaPaymentStatuses.contains order.paymentStatus then
    (st.saveOrder order, .ok order)
  else
    (st, .error ⟨500, "Order validation failed"⟩)

/-- `updateOrderStatusController`. -/
def updateOrderStatus (st : Store) (orderNumber : String)
    (status : Option String) : Store × Except HErr Order :=
  match status with
  | none =>
    (st, .error ⟨400,
      "Order status must be one of: pending, processing, shipped, delivered, cancelled"⟩)
  | some s =>
    if !validOrderStatuses.contains s then
      (st, .error ⟨400,
        "Order status must be one of: pending, processing, shipped, delivered, cancelled"⟩)
    else
      match st.findOrder orderNumber with
      | none =>
        (st, .error ⟨404, "No order found with order number: " ++ orderNumber⟩)
      | some order =>
        let o1 := { order with status := s }
        let o2 :=
          if s == "cancelled" && order.paymentStatus == "paid" then
            { o1 with paymentStatus := "pending" }
          else o1
        st.saveOrderValidated o2

/-- `updatePaymentStatusController`. -/
def updatePaymentStatus (st : Store) (orderNumber : String)
    (paymentStatus : Option String) : Store × Except HErr Order :=
  match paymentStatus with
  | none =>
    (st, .error ⟨400,
      "Payment status must be one of: pending, processing, paid, failed, refunded, refund_pending"⟩)
  | some p =>
    if !validPaymentStatuses.contains p then
      (st, .error ⟨400,
        "Payment status must be one of: pending, processing, paid, failed, refunded, refund_pending"⟩)
    else
      match st.findOrder orderNumber with
      | none =>
        (st, .error ⟨404, "No order found with order number: " ++ orderNumber⟩)
      | some order =>
        let o1 := { order with paymentStatus := p }
        let o2 :=
          if p == "paid" && order.status == "pending" then
            { o1 with status := "processing" }
          else o1
        st.saveOrderValidated o2

/-- The cart-at-rest invariant of the specification: at most 50 items,
every quantity between 1 and 10, stored totals equal to the totals
calculator applied to the items. -/
def CartInvariant (c : Cart) : Prop :=
  c.items.length ≤ maxItemsPerCart ∧
    (∀ it ∈ c.items, minQuantityPerItem ≤ it.quantity ∧ it.quantity ≤ maxQuantityPerItem) ∧
    c.totals = calculateCartTotals c.items

/-- Every cart persisted in the store satisfies the cart invariant. -/
def StoreInvariant (st : Store) : Prop :=
  ∀ c ∈ st.carts, CartInvariant c

example : calculateCartTotals [] = ⟨0, 0, 0⟩ := by
  norm_num [calculateCartTotals, rawSubtotal, toFixed2, Rat.floor_def']

example :
    calculateCartTotals
      [⟨1, 1, none, 2, 10⟩, ⟨2, 2, none, 1, 5⟩] = ⟨25, 5/2, 55/2⟩ := by
  norm_num [calculateCartTotals, rawSubtotal, toFixed2, Rat.floor_def']

/-! ## Helper lemmas -/

theorem ratFloor_eq (q : ℚ) : q.floor = ⌊q⌋ := by
  rw [Rat.floor_def', Rat.floor_def]

theorem toFixed2_mono {q r : ℚ} (h : q ≤ r) : toFixed2 q ≤ toFixed2 r := by
  unfold toFixed2
  rw [ratFloor_eq, ratFloor_eq]
  have hf : ⌊q * 100 + 1 / 2⌋ ≤ ⌊r * 100 + 1 / 2⌋ :=
    Int.floor_mono (by linarith)
  have hf' : ((⌊q * 100 + 1 / 2⌋ : ℤ) : ℚ) ≤ ((⌊r * 100 + 1 / 2⌋ : ℤ) : ℚ) := by
    exact_mod_cast hf
  linarith

theorem toFixed2_zero : toFixed2 0 = 0 := by
  unfold toFixed2
  rw [ratFloor_eq]
  norm_num

theorem toFixed2_den (q : ℚ) : (toFixed2 q * 100).den = 1 := by
  unfold toFixed2
  rw [div_mul_cancel₀ _ (by norm_num : (100 : ℚ) ≠ 0)]
  exact Rat.den_intCast _

theorem rawSubtotal_go (l : List CartItem) (acc : ℚ) :
    l.foldl (fun sum item => sum + item.price * (item.quantity : ℚ)) acc =
      acc + rawSubtotal l := by
  induction l generalizing acc with
  | nil => simp [rawSubtotal]
  | cons h t ih =>
    unfold rawSubtotal
    simp only [List.foldl]
    rw [ih, ih]
    ring

theorem rawSubtotal_cons (it : CartItem) (l : List CartItem) :
    rawSubtotal (it :: l) = it.price * (it.quantity : ℚ) + rawSubtotal l := by
  show List.foldl _ (0 + it.price * (it.quantity : ℚ)) l = _
  rw [rawSubtotal_go]
  ring

theorem rawSubtotal_nonneg {l : List CartItem}
    (h : ∀ it ∈ l, 0 ≤ it.price) : 0 ≤ rawSubtotal l := by
  induction l with
  | nil => simp [rawSubtotal]
  | cons it t ih =>
    rw [rawSubtotal_cons]
    have h1 : 0 ≤ it.price := h it (by simp)
    have h2 : 0 ≤ rawSubtotal t := ih (fun x hx => h x (by simp [hx]))
    positivity

theorem rawSubtotal_congr {l₁ l₂ : List CartItem}
    (h : l₁.map (fun it => (it.price, it.quantity)) =
      l₂.map (fun it => (it.price, it.quantity))) :
    rawSubtotal l₁ = rawSubtotal l₂ := by
  induction l₁ generalizing l₂ with
  | nil =>
    cases l₂ with
    | nil => rfl
    | cons b t => simp at h
  | cons a t ih =>
    cases l₂ with
    | nil => simp at h
    | cons b t₂ =>
      simp only [List.map, List.cons.injEq, Prod.mk.injEq] at h
      rw [rawSubtotal_cons, rawSubtotal_cons, h.1.1, h.1.2, ih h.2]

theorem calculateCartTotals_eq (l : List CartItem) :
    calculateCartTotals l =
      { subtotal := toFixed2 (rawSubtotal l)
        tax := toFixed2 (rawSubtotal l * (1 / 10))
        total := toFixed2 (rawSubtotal l + rawSubtotal l * (1 / 10)) } := rfl

/-! ## C9 -/

/-- C9: the totals calculator in cart context is deterministic (its
output depends only on the price and quantity of each line, in order),
satisfies `0 ≤ subtotal ≤ total` whenever all prices are non-negative,
and each output is the exact raw value rounded to two decimal places by
`toFixed2` (round half up: `⌊x·100 + 1/2⌋ / 100`), so that a hundredfold
of each output is an integer. -/
theorem c9_totalsCalculator (items : List CartItem)
    (hp : ∀ it ∈ items, 0 ≤ it.price) :
    (∀ items₂ : List CartItem,
        items.map (fun it => (it.price, it.quantity)) =
          items₂.map (fun it => (it.price, it.quantity)) →
        calculateCartTotals items₂ = calculateCartTotals items) ∧
    0 ≤ (calculateCartTotals items).subtotal ∧
    (calculateCartTotals items).subtotal ≤ (calculateCartTotals items).total ∧
    (calculateCartTotals items).subtotal = toFixed2 (rawSubtotal items) ∧
    (calculateCartTotals items).tax = toFixed2 (rawSubtotal items * (1 / 10)) ∧
    (calculateCartTotals items).total =
      toFixed2 (rawSubtotal items + rawSubtotal items * (1 / 10)) ∧
    ((calculateCartTotals items).subtotal * 100).den = 1 ∧
    ((calculateCartTotals items).tax * 100).den = 1 ∧
    ((calculateCartTotals items).total * 100).den = 1 := by
  have hraw : 0 ≤ rawSubtotal items := rawSubtotal_nonneg hp
  refine ⟨?_, ?_, ?_, rfl, rfl, rfl, toFixed2_den _, toFixed2_den _, toFixed2_den _⟩
  · intro items₂ h
    rw [calculateCartTotals_eq, calculateCartTotals_eq, rawSubtotal_congr h.symm]
  · rw [calculateCartTotals_eq]
    calc (0 : ℚ) = toFixed2 0 := toFixed2_zero.symm
    _ ≤ toFixed2 (rawSubtotal items) := toFixed2_mono hraw
  · rw [calculateCartTotals_eq]
    exact toFixed2_mono (by linarith)

theorem c9_totalsCalculator_witness :
    0 ≤ (calculateCartTotals [⟨1, 1, none, 2, 10⟩]).subtotal ∧
      (calculateCartTotals [⟨1, 1, none, 2, 10⟩]).subtotal ≤
        (calculateCartTotals [⟨1, 1, none, 2, 10⟩]).total :=
  ⟨(c9_totalsCalculator [⟨1, 1, none, 2, 10⟩] (by norm_num)).2.1,
    (c9_totalsCalculator [⟨1, 1, none, 2, 10⟩] (by norm_num)).2.2.1⟩

theorem Store.findCart_deleteCart (st : Store) (sid : String) :
    (st.deleteCart sid).findCart sid = none := by
  unfold Store.findCart Store.deleteCart
  rw [List.find?_eq_none]
  intro c hc
  rw [List.mem_filter] at hc
  simpa using hc.2

/-! ## C2 -/

/-- C2: on a non-expired cart holding exactly the lines
`{price 10, qty 2}` and `{price 5, qty 1}`, order creation with
shipping cost 3 yields subtotal 25, tax `25 × 0.09 = 2.25` and total
`30.25`, and afterwards the source cart is gone from the store while
the created order is persisted in it. -/
theorem c2_createOrder (st : Store) (now : ℤ) (sid cust pm m : String)
    (cart : Cart) (i₁ i₂ p₁ p₂ : Nat) (v₁ v₂ : Option Nat)
    (hc : st.findCart sid = some cart)
    (hitems : cart.items = [⟨i₁, p₁, v₁, 2, 10⟩, ⟨i₂, p₂, v₂, 1, 5⟩])
    (hexp : isCartExpired cart now = false)
    (hdup : ∀ o ∈ st.orders, o.orderNumber ≠ genOrderNumber now) :
    ∃ order : Order,
      (createOrder st now (some sid) (some cust) (some pm) (some ⟨m, 3⟩)).2 =
        .ok order ∧
      order.subtotal = 25 ∧ order.tax = 9 / 4 ∧ order.total = 121 / 4 ∧
      ((createOrder st now (some sid) (some cust) (some pm) (some ⟨m, 3⟩)).1).findCart
          sid = none ∧
      order ∈ ((createOrder st now (some sid) (some cust) (some pm)
          (some ⟨m, 3⟩)).1).orders := by
  have hany : st.orders.any (fun o => o.orderNumber == genOrderNumber now) = false := by
    rw [List.any_eq_false]
    intro o ho
    simpa using hdup o ho
  have hsub : rawSubtotal cart.items = 25 := by
    rw [hitems]
    norm_num [rawSubtotal_cons, rawSubtotal]
  have key : createOrder st now (some sid) (some cust) (some pm) (some ⟨m, 3⟩) =
      (({ st with orders := st.orders ++
          [{ orderNumber := genOrderNumber now
             customer := cust
             items := cart.items
             subtotal := rawSubtotal cart.items
             tax := rawSubtotal cart.items * orderTaxRate
             shipping := ⟨m, 3⟩
             total := rawSubtotal cart.items + rawSubtotal cart.items * orderTaxRate + 3
             status := "pending"
             paymentStatus := "pending"
             paymentMethod := pm }] } : Store).deleteCart sid,
        .ok { orderNumber := genOrderNumber now
              customer := cust
              items := cart.items
              subtotal := rawSubtotal cart.items
              tax := rawSubtotal cart.items * orderTaxRate
              shipping := ⟨m, 3⟩
              total := rawSubtotal cart.items + rawSubtotal cart.items * orderTaxRate + 3
              status := "pending"
              paymentStatus := "pending"
              paymentMethod := pm }) := by
    simp only [createOrder, hc, Store.createOrderDoc, hany]
    rw [hitems]
    simp
  refine ⟨_, by rw [key], ?_, ?_, ?_, ?_, ?_⟩
  · simpa using hsub
  · simp only [hsub, orderTaxRate]
    norm_num
  · simp only [hsub, orderTaxRate]
    norm_num
  · rw [key]
    exact Store.findCart_deleteCart _ _
  · rw [key]
    simp [Store.deleteCart]

theorem c2_createOrder_witness :
    ∃ order : Order,
      (createOrder ⟨[⟨"s", [⟨1, 7, none, 2, 10⟩, ⟨2, 8, none, 1, 5⟩], "active",
          ⟨0, 0, 0⟩, some 0⟩], [], []⟩ 5 (some "s") (some "cust") (some "card")
          (some ⟨"std", 3⟩)).2 = .ok order ∧
      order.subtotal = 25 ∧ order.tax = 9 / 4 ∧ order.total = 121 / 4 ∧
      ((createOrder ⟨[⟨"s", [⟨1, 7, none, 2, 10⟩, ⟨2, 8, none, 1, 5⟩], "active",
          ⟨0, 0, 0⟩, some 0⟩], [], []⟩ 5 (some "s") (some "cust") (some "card")
          (some ⟨"std", 3⟩)).1).findCart "s" = none ∧
      order ∈ ((createOrder ⟨[⟨"s", [⟨1, 7, none, 2, 10⟩, ⟨2, 8, none, 1, 5⟩],
          "active", ⟨0, 0, 0⟩, some 0⟩], [], []⟩ 5 (some "s") (some "cust")
          (some "card") (some ⟨"std", 3⟩)).1).orders :=
  c2_createOrder _ 5 "s" "cust" "card" "std"
    ⟨"s", [⟨1, 7, none, 2, 10⟩, ⟨2, 8, none, 1, 5⟩], "active", ⟨0, 0, 0⟩, some 0⟩
    1 2 7 8 none none
    (by simp [Store.findCart])
    rfl
    (by simp [isCartExpired, cartExpirationMs])
    (by simp)

theorem find?_save (l : List Cart) (sid : String) (cart c' : Cart)
    (h : l.find? (fun c => c.sessionId == sid) = some cart)
    (hs : c'.sessionId = cart.sessionId) :
    (l.map (fun c => if c.sessionId == c'.sessionId then c' else c)).find?
      (fun c => c.sessionId == sid) = some c' := by
  induction l with
  | nil => simp at h
  | cons a t ih =>
    by_cases ha : (a.sessionId == sid) = true
    · rw [List.find?_cons_of_pos (p := fun c : Cart => c.sessionId == sid) t ha] at h
      have hca : cart = a := by injection h with h; exact h.symm
      have hsid : a.sessionId = sid := by simpa using ha
      have hc' : c'.sessionId = sid := by rw [hs, hca, hsid]
      have hhead : (a.sessionId == c'.sessionId) = true := by
        simp [hc', hsid]
      simp only [List.map, hhead, if_pos]
      exact List.find?_cons_of_pos _ (by simp [hc'])
    · rw [List.find?_cons_of_neg (p := fun c : Cart => c.sessionId == sid) t ha] at h
      have hcart : cart.sessionId = sid := by
        simpa using List.find?_some h
      have hhead : ¬(a.sessionId == c'.sessionId) = true := by
        rw [hs, hcart]
        exact ha
      simp only [List.map, if_neg hhead]
      rw [List.find?_cons_of_neg (p := fun c : Cart => c.sessionId == sid) _ ha]
      exact ih h

theorem Store.findCart_saveCart (st : Store) (sid : String) (cart c' : Cart)
    (h : st.findCart sid = some cart) (hs : c'.sessionId = cart.sessionId) :
    (st.saveCart c').findCart sid = some c' :=
  find?_save st.carts sid cart c' h hs

/-! ## C5 -/

/-- C5: on a cart whose `updatedAt` lies more than 24 hours in the
past, each of Get, AddItem (with well-formed arguments),
UpdateItemQuantity (with a well-formed quantity), RemoveItem and Clear
fails with the `Cart has expired` error, and the store coming out of
the failing operation holds the cart with `status = "expired"`. -/
theorem c5_expiredCart (st : Store) (now : ℤ) (sid : String) (cart : Cart)
    (pid itemId : Nat) (vid : Option Nat) (q : Nat)
    (hc : st.findCart sid = some cart)
    (hq1 : minQuantityPerItem ≤ q) (hq2 : q ≤ maxQuantityPerItem)
    (hexp : isCartExpired cart now = true) :
    getCartBySession st now sid =
      (st.saveCart { cart with status := "expired" },
        .error ⟨400, "Cart has expired"⟩) ∧
    addCartItem st now sid (some pid) q vid =
      (st.saveCart { cart with status := "expired" },
        .error ⟨400, "Cart has expired"⟩) ∧
    updateCartItem st now sid itemId q =
      (st.saveCart { cart with status := "expired" },
        .error ⟨400, "Cart has expired"⟩) ∧
    removeCartItem st now sid itemId =
      (st.saveCart { cart with status := "expired" },
        .error ⟨400, "Cart has expired"⟩) ∧
    clearCart st now sid =
      (st.saveCart { cart with status := "expired" },
        .error ⟨404, "Cart has expired"⟩) ∧
    (st.saveCart { cart with status := "expired" }).findCart sid =
      some { cart with status := "expired" } := by
  have h1 : decide (q < minQuantityPerItem) = false :=
    decide_eq_false (Nat.not_lt.mpr hq1)
  have h2 : decide (maxQuantityPerItem < q) = false :=
    decide_eq_false (Nat.not_lt.mpr hq2)
  refine ⟨?_, ?_, ?_, ?_, ?_, ?_⟩
  · simp [getCartBySession, hc, hexp]
  · simp [addCartItem, h1, h2, hc, hexp]
  · simp [updateCartItem, h1, h2, hc, hexp]
  · simp [removeCartItem, hc, hexp]
  · simp [clearCart, hc, hexp]
  · exact st.findCart_saveCart sid cart _ hc rfl

theorem c5_expiredCart_witness :
    getCartBySession ⟨[⟨"s", [], "active", ⟨0, 0, 0⟩, some 0⟩], [], []⟩
        (cartExpirationMs + 1) "s" =
      ((⟨[⟨"s", [], "active", ⟨0, 0, 0⟩, some 0⟩], [], []⟩ : Store).saveCart
          ⟨"s", [], "expired", ⟨0, 0, 0⟩, some 0⟩,
        .error ⟨400, "Cart has expired"⟩) ∧
    ((⟨[⟨"s", [], "active", ⟨0, 0, 0⟩, some 0⟩], [], []⟩ : Store).saveCart
        ⟨"s", [], "expired", ⟨0, 0, 0⟩, some 0⟩).findCart "s" =
      some ⟨"s", [], "expired", ⟨0, 0, 0⟩, some 0⟩ :=
  have h := c5_expiredCart ⟨[⟨"s", [], "active", ⟨0, 0, 0⟩, some 0⟩], [], []⟩
    (cartExpirationMs + 1) "s" ⟨"s", [], "active", ⟨0, 0, 0⟩, some 0⟩
    3 4 none 1
    (by simp [Store.findCart])
    (by simp [minQuantityPerItem])
    (by simp [maxQuantityPerItem])
    (by simp [isCartExpired])
  ⟨h.1, h.2.2.2.2.2⟩

/-! ## C7 -/

/-- C7: transitioning an order to `cancelled` while its payment status
is `paid` resets the payment status to `pending`; transitioning the
payment status to `paid` while the order status is `pending` advances
the order status to `processing`; and these are the only automatic
cross-field updates: any other status update leaves the payment status
untouched, and any other payment-status update leaves the order status
untouched. -/
theorem c7_statusMachine (st : Store) (n : String) (o : Order)
    (ho : st.findOrder n = some o) :
    (o.paymentStatus = "paid" →
      updateOrderStatus st n (some "cancelled") =
        (st.saveOrder { o with status := "cancelled", paymentStatus := "pending" },
          .ok { o with status := "cancelled", paymentStatus := "pending" })) ∧
    (o.status = "pending" →
      updatePaymentStatus st n (some "paid") =
        (st.saveOrder { o with status := "processing", paymentStatus := "paid" },
          .ok { o with status := "processing", paymentStatus := "paid" })) ∧
    (∀ s : String, ¬(s = "cancelled" ∧ o.paymentStatus = "paid") →
      ∀ o₂ : Order, (updateOrderStatus st n (some s)).2 = .ok o₂ →
        o₂.paymentStatus = o.paymentStatus ∧ o₂.status = s) ∧
    (∀ p : String, ¬(p = "paid" ∧ o.status = "pending") →
      ∀ o₂ : Order, (updatePaymentStatus st n (some p)).2 = .ok o₂ →
        o₂.status = o.status ∧ o₂.paymentStatus = p) := by
  refine ⟨?_, ?_, ?_, ?_⟩
  · intro hp
    simp [updateOrderStatus, ho, hp, validOrderStatuses,
      Store.saveOrderValidated, schemaPaymentStatuses]
  · intro hs
    simp [updatePaymentStatus, ho, hs, validPaymentStatuses,
      Store.saveOrderValidated, validOrderStatuses, schemaPaymentStatuses]
  · intro s hs o₂ h
    by_cases hv : s ∈ validOrderStatuses
    · by_cases hpm : o.paymentStatus ∈ schemaPaymentStatuses
      · simp only [updateOrderStatus, ho, Store.saveOrderValidated] at h
        simp [hv, hs, hpm] at h
        subst h
        exact ⟨rfl, rfl⟩
      · simp only [updateOrderStatus, ho, Store.saveOrderValidated] at h
        simp [hv, hs, hpm] at h
    · simp [updateOrderStatus, hv] at h
  · intro p hp o₂ h
    by_cases hv : p ∈ validPaymentStatuses
    · by_cases hpm : p ∈ schemaPaymentStatuses
      · by_cases hos : o.status ∈ validOrderStatuses
        · simp only [updatePaymentStatus, ho, Store.saveOrderValidated] at h
          simp [hv, hp, hpm, hos] at h
          subst h
          exact ⟨rfl, rfl⟩
        · simp only [updatePaymentStatus, ho, Store.saveOrderValidated] at h
          simp [hv, hp, hpm, hos] at h
      · simp only [updatePaymentStatus, ho, Store.saveOrderValidated] at h
        simp [hv, hp, hpm] at h
    · simp [updatePaymentStatus, hv] at h

theorem c7_statusMachine_witness :
    updateOrderStatus ⟨[], [⟨"ORD-1", "cust", [], 0, 0, ⟨"std", 0⟩, 0,
        "processing", "paid", "card"⟩], []⟩ "ORD-1" (some "cancelled") =
      ((⟨[], [⟨"ORD-1", "cust", [], 0, 0, ⟨"std", 0⟩, 0,
          "processing", "paid", "card"⟩], []⟩ : Store).saveOrder
          ⟨"ORD-1", "cust", [], 0, 0, ⟨"std", 0⟩, 0,
            "cancelled", "pending", "card"⟩,
        .ok ⟨"ORD-1", "cust", [], 0, 0, ⟨"std", 0⟩, 0,
          "cancelled", "pending", "card"⟩) :=
  (c7_statusMachine ⟨[], [⟨"ORD-1", "cust", [], 0, 0, ⟨"std", 0⟩, 0,
      "processing", "paid", "card"⟩], []⟩ "ORD-1"
    ⟨"ORD-1", "cust", [], 0, 0, ⟨"std", 0⟩, 0, "processing", "paid", "card"⟩
    (by simp [Store.findOrder])).1 rfl

/-! ## List helper lemmas for the cart item operations -/

theorem updateFirstMatch_length (p : CartItem → Bool) (f : CartItem → CartItem) :
    ∀ l : List CartItem, (updateFirstMatch p f l).length = l.length
  | [] => rfl
  | a :: t => by
    unfold updateFirstMatch
    by_cases h : p a = true
    · simp [h]
    · simp [h, updateFirstMatch_length p f t]

theorem updateFirstMatch_forall {P : CartItem → Prop} (p : CartItem → Bool)
    (f : CartItem → CartItem) (l : List CartItem)
    (hl : ∀ it ∈ l, P it) (hf : ∀ it ∈ l, p it = true → P (f it)) :
    ∀ it ∈ updateFirstMatch p f l, P it := by
  induction l with
  | nil => simp [updateFirstMatch]
  | cons a t ih =>
    unfold updateFirstMatch
    by_cases h : p a = true
    · simp only [h, if_true]
      intro it hit
      rcases List.mem_cons.mp hit with h1 | h1
      · rw [h1]; exact hf a (by simp) h
      · exact hl it (by simp [h1])
    · simp only [h, if_false]
      intro it hit
      rcases List.mem_cons.mp hit with h1 | h1
      · rw [h1]; exact hl a (by simp)
      · exact ih (fun x hx => hl x (by simp [hx]))
          (fun x hx hpx => hf x (by simp [hx]) hpx) it h1

theorem find?_updateFirstMatch (p : CartItem → Bool) (f : CartItem → CartItem)
    (l : List CartItem) (a : CartItem)
    (h : l.find? p = some a) (hf : p (f a) = true) :
    (updateFirstMatch p f l).find? p = some (f a) := by
  induction l with
  | nil => simp at h
  | cons b t ih =>
    unfold updateFirstMatch
    by_cases hb : p b = true
    · rw [List.find?_cons_of_pos t hb] at h
      have hba : b = a := by injection h
      subst hba
      simp only [hb, if_true]
      exact List.find?_cons_of_pos _ hf
    · rw [List.find?_cons_of_neg t hb] at h
      have hb' : p b = false := by simpa using hb
      simp only [hb', Bool.false_eq_true, if_false]
      rw [List.find?_cons_of_neg _ hb]
      exact ih h

/-! ## Branch computation lemma for AddItem on an existing line -/

theorem addCartItem_merge_case (st : Store) (now : ℤ) (sid : String)
    (pid : Nat) (q : Nat) (vid : Option Nat) (cart : Cart)
    (product : Product) (item : CartItem)
    (hc : st.findCart sid = some cart)
    (hexp : isCartExpired cart now = false)
    (hact : cart.status = "active")
    (hlen : cart.items.length < maxItemsPerCart)
    (hq1 : minQuantityPerItem ≤ q) (hq2 : q ≤ maxQuantityPerItem)
    (hp : st.findProduct pid = some product)
    (hpa : product.isActive = true)
    (hstock : (q : ℤ) ≤ product.invQuantity - product.invReserved)
    (hfind : cart.items.find? (addMatches pid vid) = some item) :
    addCartItem st now sid (some pid) q vid =
      if maxQuantityPerItem < item.quantity + q then
        (st, .error ⟨400, "Cannot add more than 10 units of an item"⟩)
      else
        (st.saveCart
          { cart with
            items := updateFirstMatch (addMatches pid vid)
              (fun it => { it with quantity := item.quantity + q }) cart.items
            totals := calculateCartTotals (updateFirstMatch (addMatches pid vid)
              (fun it => { it with quantity := item.quantity + q }) cart.items)
            updatedAt := some now },
          .ok { cart with
            items := updateFirstMatch (addMatches pid vid)
              (fun it => { it with quantity := item.quantity + q }) cart.items
            totals := calculateCartTotals (updateFirstMatch (addMatches pid vid)
              (fun it => { it with quantity := item.quantity + q }) cart.items)
            updatedAt := some now }) := by
  have h1 : ¬(q < minQuantityPerItem) := Nat.not_lt.mpr hq1
  have h2 : ¬(maxQuantityPerItem < q) := Nat.not_lt.mpr hq2
  have h3 : ¬(maxItemsPerCart ≤ cart.items.length) := Nat.not_le.mpr hlen
  have h4 : ¬(product.invQuantity - product.invReserved < (q : ℤ)) :=
    Int.not_lt.mpr hstock
  simp [addCartItem, hc, hexp, hact, hfind, hp, hpa, h1, h2, h3, h4]

/-! ## C4 -/

/-- C4: adding quantity `q` to an existing line already holding `p`
with `p + q > 10` makes AddItem fail with the 10-unit limit error and
leaves the store (hence the line) untouched, while Merge in the same
situation succeeds and clamps the target line to exactly 10 with no
error. -/
theorem c4_capAsymmetry :
    (∀ (st : Store) (now : ℤ) (sid : String) (pid q : Nat) (vid : Option Nat)
        (cart : Cart) (product : Product) (item : CartItem),
      st.findCart sid = some cart →
      isCartExpired cart now = false →
      cart.status = "active" →
      cart.items.length < maxItemsPerCart →
      minQuantityPerItem ≤ q → q ≤ maxQuantityPerItem →
      st.findProduct pid = some product →
      product.isActive = true →
      (q : ℤ) ≤ product.invQuantity - product.invReserved →
      cart.items.find? (addMatches pid vid) = some item →
      maxQuantityPerItem < item.quantity + q →
      addCartItem st now sid (some pid) q vid =
        (st, .error ⟨400, "Cannot add more than 10 units of an item"⟩)) ∧
    (∀ (st : Store) (now : ℤ) (src tgt : String) (sc tc : Cart)
        (si ti : CartItem),
      st.findActiveCart src = some sc →
      st.findActiveCart tgt = some tc →
      sc.items = [si] →
      tc.items.find? (mergeMatches si) = some ti →
      maxQuantityPerItem < ti.quantity + si.quantity →
      ∃ cart' : Cart,
        (mergeCarts st now (some src) (some tgt)).2 = .ok cart' ∧
        cart'.items.find? (mergeMatches si) =
          some { ti with quantity := maxQuantityPerItem }) := by
  constructor
  · intro st now sid pid q vid cart product item hc hexp hact hlen hq1 hq2 hp
      hpa hstock hfind hover
    rw [addCartItem_merge_case st now sid pid q vid cart product item hc hexp
      hact hlen hq1 hq2 hp hpa hstock hfind]
    rw [if_pos hover]
  · intro st now src tgt sc tc si ti hsrc htgt hsingle htfind hover
    have hmn : min (ti.quantity + si.quantity) maxQuantityPerItem =
        maxQuantityPerItem := Nat.min_eq_right (Nat.le_of_lt hover)
    have hti : mergeMatches si ti = true := List.find?_some htfind
    have hf : mergeMatches si
        { ti with quantity := min (ti.quantity + si.quantity) maxQuantityPerItem } =
        true := by
      simpa [mergeMatches] using hti
    have key : mergeCarts st now (some src) (some tgt) =
        ((st.saveCart { tc with
            items := List.foldl mergeStep tc.items sc.items
            totals := calculateCartTotals (List.foldl mergeStep tc.items sc.items)
            updatedAt := some now }).updateCartFields src
            (fun c => { c with status := "merged", updatedAt := some now }),
          .ok { tc with
            items := List.foldl mergeStep tc.items sc.items
            totals := calculateCartTotals (List.foldl mergeStep tc.items sc.items)
            updatedAt := some now }) := by
      simp only [mergeCarts, hsrc, htgt]
    refine ⟨{ tc with
        items := List.foldl mergeStep tc.items sc.items
        totals := calculateCartTotals (List.foldl mergeStep tc.items sc.items)
        updatedAt := some now }, ?_, ?_⟩
    · rw [key]
    · show (List.foldl mergeStep tc.items sc.items).find? (mergeMatches si) = _
      rw [hsingle]
      simp only [List.foldl]
      unfold mergeStep
      rw [if_pos (by simp [htfind])]
      rw [find?_updateFirstMatch (mergeMatches si) _ tc.items ti htfind hf]
      rw [hmn]

theorem c4_capAsymmetry_witness :
    addCartItem ⟨[⟨"a", [⟨1, 7, none, 9, 10⟩], "active", ⟨90, 9, 99⟩, some 0⟩,
        ⟨"b", [⟨2, 7, none, 5, 10⟩], "active", ⟨50, 5, 55⟩, some 0⟩], [],
        [⟨7, 10, true, 100, 0⟩]⟩ 5 "a" (some 7) 2 none =
      (⟨[⟨"a", [⟨1, 7, none, 9, 10⟩], "active", ⟨90, 9, 99⟩, some 0⟩,
        ⟨"b", [⟨2, 7, none, 5, 10⟩], "active", ⟨50, 5, 55⟩, some 0⟩], [],
        [⟨7, 10, true, 100, 0⟩]⟩,
        .error ⟨400, "Cannot add more than 10 units of an item"⟩) ∧
    ∃ cart' : Cart,
      (mergeCarts ⟨[⟨"a", [⟨1, 7, none, 9, 10⟩], "active", ⟨90, 9, 99⟩, some 0⟩,
        ⟨"b", [⟨2, 7, none, 5, 10⟩], "active", ⟨50, 5, 55⟩, some 0⟩], [],
        [⟨7, 10, true, 100, 0⟩]⟩ 5 (some "b") (some "a")).2 = .ok cart' ∧
      cart'.items.find? (mergeMatches ⟨2, 7, none, 5, 10⟩) =
        some ⟨1, 7, none, maxQuantityPerItem, 10⟩ :=
  ⟨c4_capAsymmetry.1 _ 5 "a" 7 2 none
      ⟨"a", [⟨1, 7, none, 9, 10⟩], "active", ⟨90, 9, 99⟩, some 0⟩
      ⟨7, 10, true, 100, 0⟩ ⟨1, 7, none, 9, 10⟩
      (by simp [Store.findCart])
      (by simp [isCartExpired, cartExpirationMs])
      rfl
      (by simp [maxItemsPerCart])
      (by simp [minQuantityPerItem])
      (by simp [maxQuantityPerItem])
      (by simp [Store.findProduct])
      rfl
      (by norm_num)
      (by simp [addMatches])
      (by simp [maxQuantityPerItem]),
    c4_capAsymmetry.2 _ 5 "b" "a"
      ⟨"b", [⟨2, 7, none, 5, 10⟩], "active", ⟨50, 5, 55⟩, some 0⟩
      ⟨"a", [⟨1, 7, none, 9, 10⟩], "active", ⟨90, 9, 99⟩, some 0⟩
      ⟨2, 7, none, 5, 10⟩ ⟨1, 7, none, 9, 10⟩
      (by simp [Store.findActiveCart])
      (by simp [Store.findActiveCart])
      rfl
      (by simp [mergeMatches])
      (by simp [maxQuantityPerItem])⟩

/-! ## C10 -/

/-- C10: a request without a variant matches an existing line on
product alone.  AddItem with no `variantId` on a cart whose first line
for the product carries a variant merges the quantity into that line
(same number of lines afterwards, that line grown by `q`) instead of
appending a variantless line; Merge does the same when the source item
has no variant (quantities summed and capped at 10). -/
theorem c10_variantlessMatching :
    (∀ (st : Store) (now : ℤ) (sid : String) (pid q v : Nat)
        (cart : Cart) (product : Product) (item : CartItem),
      st.findCart sid = some cart →
      isCartExpired cart now = false →
      cart.status = "active" →
      cart.items.length < maxItemsPerCart →
      minQuantityPerItem ≤ q → q ≤ maxQuantityPerItem →
      st.findProduct pid = some product →
      product.isActive = true →
      (q : ℤ) ≤ product.invQuantity - product.invReserved →
      cart.items.find? (addMatches pid none) = some item →
      item.variant = some v →
      item.quantity + q ≤ maxQuantityPerItem →
      ∃ cart' : Cart,
        addCartItem st now sid (some pid) q none = (st.saveCart cart', .ok cart') ∧
        cart'.items.length = cart.items.length ∧
        cart'.items.find? (addMatches pid none) =
          some { item with quantity := item.quantity + q }) ∧
    (∀ (st : Store) (now : ℤ) (src tgt : String) (sc tc : Cart)
        (si ti : CartItem) (v : Nat),
      st.findActiveCart src = some sc →
      st.findActiveCart tgt = some tc →
      sc.items = [si] →
      si.variant = none →
      tc.items.find? (mergeMatches si) = some ti →
      ti.variant = some v →
      ∃ cart' : Cart,
        (mergeCarts st now (some src) (some tgt)).2 = .ok cart' ∧
        cart'.items.length = tc.items.length ∧
        cart'.items.find? (mergeMatches si) =
          some { ti with
            quantity := min (ti.quantity + si.quantity) maxQuantityPerItem }) := by
  constructor
  · intro st now sid pid q v cart product item hc hexp hact hlen hq1 hq2 hp
      hpa hstock hfind hvar hle
    rw [addCartItem_merge_case st now sid pid q none cart product item hc hexp
      hact hlen hq1 hq2 hp hpa hstock hfind]
    rw [if_neg (Nat.not_lt.mpr hle)]
    have hf : addMatches pid none
        { item with quantity := item.quantity + q } = true := by
      simpa [addMatches] using List.find?_some hfind
    exact ⟨_, rfl, updateFirstMatch_length _ _ _,
      find?_updateFirstMatch (addMatches pid none) _ cart.items item hfind hf⟩
  · intro st now src tgt sc tc si ti v hsrc htgt hsingle hsvar htfind htvar
    have hf : mergeMatches si
        { ti with quantity := min (ti.quantity + si.quantity) maxQuantityPerItem } =
        true := by
      simpa [mergeMatches] using List.find?_some htfind
    have key : mergeCarts st now (some src) (some tgt) =
        ((st.saveCart { tc with
            items := List.foldl mergeStep tc.items sc.items
            totals := calculateCartTotals (List.foldl mergeStep tc.items sc.items)
            updatedAt := some now }).updateCartFields src
            (fun c => { c with status := "merged", updatedAt := some now }),
          .ok { tc with
            items := List.foldl mergeStep tc.items sc.items
            totals := calculateCartTotals (List.foldl mergeStep tc.items sc.items)
            updatedAt := some now }) := by
      simp only [mergeCarts, hsrc, htgt]
    have hitems : List.foldl mergeStep tc.items sc.items =
        updateFirstMatch (mergeMatches si)
          (fun item =>
            { item with
              quantity := min (item.quantity + si.quantity) maxQuantityPerItem })
          tc.items := by
      rw [hsingle]
      simp only [List.foldl]
      unfold mergeStep
      rw [if_pos (by simp [htfind])]
    refine ⟨{ tc with
        items := List.foldl mergeStep tc.items sc.items
        totals := calculateCartTotals (List.foldl mergeStep tc.items sc.items)
        updatedAt := some now }, ?_, ?_, ?_⟩
    · rw [key]
    · show (List.foldl mergeStep tc.items sc.items).length = tc.items.length
      rw [hitems]
      exact updateFirstMatch_length _ _ _
    · show (List.foldl mergeStep tc.items sc.items).find? (mergeMatches si) = _
      rw [hitems]
      exact find?_updateFirstMatch (mergeMatches si) _ tc.items ti htfind hf

theorem c10_variantlessMatching_witness :
    (∃ cart' : Cart,
      addCartItem ⟨[⟨"a", [⟨1, 7, some 3, 4, 10⟩], "active", ⟨40, 4, 44⟩, some 0⟩,
          ⟨"b", [⟨2, 7, none, 5, 10⟩], "active", ⟨50, 5, 55⟩, some 0⟩], [],
          [⟨7, 10, true, 100, 0⟩]⟩ 5 "a" (some 7) 2 none =
        ((⟨[⟨"a", [⟨1, 7, some 3, 4, 10⟩], "active", ⟨40, 4, 44⟩, some 0⟩,
          ⟨"b", [⟨2, 7, none, 5, 10⟩], "active", ⟨50, 5, 55⟩, some 0⟩], [],
          [⟨7, 10, true, 100, 0⟩]⟩ : Store).saveCart cart', .ok cart') ∧
      cart'.items.length = 1 ∧
      cart'.items.find? (addMatches 7 none) = some ⟨1, 7, some 3, 6, 10⟩) ∧
    (∃ cart' : Cart,
      (mergeCarts ⟨[⟨"a", [⟨1, 7, some 3, 4, 10⟩], "active", ⟨40, 4, 44⟩, some 0⟩,
          ⟨"b", [⟨2, 7, none, 5, 10⟩], "active", ⟨50, 5, 55⟩, some 0⟩], [],
          [⟨7, 10, true, 100, 0⟩]⟩ 5 (some "b") (some "a")).2 = .ok cart' ∧
      cart'.items.length = 1 ∧
      cart'.items.find? (mergeMatches ⟨2, 7, none, 5, 10⟩) =
        some ⟨1, 7, some 3, min (4 + 5) maxQuantityPerItem, 10⟩) := by
  constructor
  · obtain ⟨cart', h1, h2, h3⟩ := c10_variantlessMatching.1
      ⟨[⟨"a", [⟨1, 7, some 3, 4, 10⟩], "active", ⟨40, 4, 44⟩, some 0⟩,
        ⟨"b", [⟨2, 7, none, 5, 10⟩], "active", ⟨50, 5, 55⟩, some 0⟩], [],
        [⟨7, 10, true, 100, 0⟩]⟩ 5 "a" 7 2 3
      ⟨"a", [⟨1, 7, some 3, 4, 10⟩], "active", ⟨40, 4, 44⟩, some 0⟩
      ⟨7, 10, true, 100, 0⟩ ⟨1, 7, some 3, 4, 10⟩
      (by simp [Store.findCart])
      (by simp [isCartExpired, cartExpirationMs])
      rfl
      (by simp [maxItemsPerCart])
      (by simp [minQuantityPerItem])
      (by simp [maxQuantityPerItem])
      (by simp [Store.findProduct])
      rfl
      (by norm_num)
      (by simp [addMatches])
      rfl
      (by simp [maxQuantityPerItem])
    exact ⟨cart', h1, h2, h3⟩
  · obtain ⟨cart', h1, h2, h3⟩ := c10_variantlessMatching.2
      ⟨[⟨"a", [⟨1, 7, some 3, 4, 10⟩], "active", ⟨40, 4, 44⟩, some 0⟩,
        ⟨"b", [⟨2, 7, none, 5, 10⟩], "active", ⟨50, 5, 55⟩, some 0⟩], [],
        [⟨7, 10, true, 100, 0⟩]⟩ 5 "b" "a"
      ⟨"b", [⟨2, 7, none, 5, 10⟩], "active", ⟨50, 5, 55⟩, some 0⟩
      ⟨"a", [⟨1, 7, some 3, 4, 10⟩], "active", ⟨40, 4, 44⟩, some 0⟩
      ⟨2, 7, none, 5, 10⟩ ⟨1, 7, some 3, 4, 10⟩ 3
      (by simp [Store.findActiveCart])
      (by simp [Store.findActiveCart])
      rfl
      rfl
      (by simp [mergeMatches])
      rfl
    exact ⟨cart', h1, h2, h3⟩

/-! ## C3 -/

/-- C3 (code bug): Get on a non-expired cart whose only item refers to
an inactive, out-of-stock product returns the cart with that item still
in it and leaves the store untouched.  In the source, the availability
pass runs `cart.items.filter` with an `async` predicate; an `async`
function returns a Promise, which is truthy for every element, so the
filter keeps every item and `needsUpdate` is still `false` when it is
tested — the advertised self-healing never removes anything. -/
theorem c3_selfHealNeverRemoves :
    getCartBySession
        ⟨[⟨"s", [⟨1, 7, none, 2, 10⟩], "active", ⟨20, 2, 22⟩, some 0⟩], [],
          [⟨7, 10, false, 0, 0⟩]⟩ 5 "s" =
      (⟨[⟨"s", [⟨1, 7, none, 2, 10⟩], "active", ⟨20, 2, 22⟩, some 0⟩], [],
          [⟨7, 10, false, 0, 0⟩]⟩,
        .ok ⟨"s", [⟨1, 7, none, 2, 10⟩], "active", ⟨20, 2, 22⟩, some 0⟩) ∧
    ((⟨[⟨"s", [⟨1, 7, none, 2, 10⟩], "active", ⟨20, 2, 22⟩, some 0⟩], [],
        [⟨7, 10, false, 0, 0⟩]⟩ : Store).findProduct 7).map Product.isActive =
      some false := by
  constructor
  · simp [getCartBySession, Store.findCart, isCartExpired, cartExpirationMs]
  · simp [Store.findProduct]

/-! ## C6 -/

/-- C6 (code bug): creating a cart for a session whose stored cart has
expired does not succeed: the controller marks the old cart `expired`
but never deletes it, so the following `Cart.create` with the same
session id violates the schema's unique `sessionId` index and the
request fails with the duplicate key error (a 500), leaving no new
active cart.  Moreover the Conflict branch fires for any non-expired
cart regardless of status — here a cart in status `merged` — although
no unexpired active cart exists for the session. -/
theorem c6_createCart_bug :
    createCart ⟨[⟨"s1", [], "active", ⟨0, 0, 0⟩, some 0⟩], [], []⟩
        (cartExpirationMs + 1) (some "s1") =
      (⟨[⟨"s1", [], "expired", ⟨0, 0, 0⟩, some (cartExpirationMs + 1)⟩], [], []⟩,
        .error ⟨500, "E11000 duplicate key error"⟩) ∧
    createCart ⟨[⟨"s2", [], "merged", ⟨0, 0, 0⟩, some 0⟩], [], []⟩ 5 (some "s2") =
      (⟨[⟨"s2", [], "merged", ⟨0, 0, 0⟩, some 0⟩], [], []⟩,
        .error ⟨400, "Active cart already exists for this session"⟩) := by
  constructor
  · have hx : isCartExpired ⟨"s1", [], "active", ⟨0, 0, 0⟩, some 0⟩
        (cartExpirationMs + 1) = true := by
      simp [isCartExpired]
    simp [createCart, Store.findCart, hx, Store.updateCartFields,
      Store.createCartDoc, freshCart]
  · have hx : isCartExpired ⟨"s2", [], "merged", ⟨0, 0, 0⟩, some 0⟩ 5 = false := by
      simp [isCartExpired, cartExpirationMs]
    simp [createCart, Store.findCart, hx]

/-! ## C8 -/

theorem map_save_orderNumbers (l : List Order) (o : Order) :
    (l.map (fun x => if x.orderNumber == o.orderNumber then o else x)).map
      Order.orderNumber = l.map Order.orderNumber := by
  induction l with
  | nil => rfl
  | cons a t ih =>
    simp only [List.map]
    by_cases h : (a.orderNumber == o.orderNumber) = true
    · rw [if_pos h, ih, ← beq_iff_eq.mp h]
    · rw [if_neg h, ih]

theorem Store.saveOrder_orderNumbers (st : Store) (o : Order) :
    (st.saveOrder o).orders.map Order.orderNumber =
      st.orders.map Order.orderNumber :=
  map_save_orderNumbers st.orders o

theorem updateOrderStatus_orderNumbers (st : Store) (n : String)
    (s : Option String) :
    ((updateOrderStatus st n s).1).orders.map Order.orderNumber =
      st.orders.map Order.orderNumber := by
  unfold updateOrderStatus
  cases s with
  | none => rfl
  | some s =>
    dsimp only
    split
    · rfl
    · split
      · rfl
      · unfold Store.saveOrderValidated
        split
        · split
          · exact Store.saveOrder_orderNumbers _ _
          · rfl
        · split
          · exact Store.saveOrder_orderNumbers _ _
          · rfl

theorem updatePaymentStatus_orderNumbers (st : Store) (n : String)
    (p : Option String) :
    ((updatePaymentStatus st n p).1).orders.map Order.orderNumber =
      st.orders.map Order.orderNumber := by
  unfold updatePaymentStatus
  cases p with
  | none => rfl
  | some p =>
    dsimp only
    split
    · rfl
    · split
      · rfl
      · unfold Store.saveOrderValidated
        split
        · split
          · exact Store.saveOrder_orderNumbers _ _
          · rfl
        · split
          · exact Store.saveOrder_orderNumbers _ _
          · rfl

theorem createOrder_pairwise (st : Store) (now : ℤ)
    (sid cust pm : Option String) (ship : Option Shipping)
    (st' : Store) (r : Except HErr Order)
    (h : createOrder st now sid cust pm ship = (st', r))
    (hp : st.orders.Pairwise (fun a b => a.orderNumber ≠ b.orderNumber)) :
    st'.orders.Pairwise (fun a b => a.orderNumber ≠ b.orderNumber) := by
  unfold createOrder Store.createOrderDoc at h
  split at h
  · split at h
    · injection h with h1 h2
      rw [← h1]
      exact hp
    · split at h
      · injection h with h1 h2
        rw [← h1]
        exact hp
      · dsimp only at h
        split at h
        · injection h with h1 h2
          rw [← h1]
          exact hp
        · rename_i st2 hd
          injection h with h1 h2
          rw [← h1]
          dsimp only [Store.deleteCart]
          by_cases hany : (st.orders.any fun o => o.orderNumber ==
              genOrderNumber now) = true
          · rw [if_pos hany] at hd
            exact absurd hd (by simp)
          · rw [if_neg hany] at hd
            injection hd with hd
            rw [← hd]
            dsimp only
            rw [List.pairwise_append]
            refine ⟨hp, by simp, ?_⟩
            intro a ha b hb
            rw [List.mem_singleton] at hb
            rw [Bool.not_eq_true, List.any_eq_false] at hany
            have hane := hany a ha
            rw [hb]
            simpa using hane
  · injection h with h1 h2
    rw [← h1]
    exact hp

/-- C8 (counterexample): two order creations at the same millisecond
timestamp do not yield two orders with distinct order numbers — the
generated number is `ORD-` followed by the timestamp, so the second
creation collides on the unique `orderNumber` index and fails with a
500, producing no order at all. -/
theorem c8_sameTimestamp_counterexample :
    (∃ o₁ : Order,
      (createOrder ⟨[⟨"a", [⟨1, 7, none, 1, 10⟩], "active", ⟨10, 1, 11⟩, some 0⟩,
          ⟨"b", [⟨2, 8, none, 1, 5⟩], "active", ⟨5, 1/2, 11/2⟩, some 0⟩], [], []⟩
        99 (some "a") (some "c") (some "pm") (some ⟨"m", 0⟩)).2 = .ok o₁ ∧
      o₁.orderNumber = genOrderNumber 99) ∧
    (createOrder
      (createOrder ⟨[⟨"a", [⟨1, 7, none, 1, 10⟩], "active", ⟨10, 1, 11⟩, some 0⟩,
          ⟨"b", [⟨2, 8, none, 1, 5⟩], "active", ⟨5, 1/2, 11/2⟩, some 0⟩], [], []⟩
        99 (some "a") (some "c") (some "pm") (some ⟨"m", 0⟩)).1
      99 (some "b") (some "c") (some "pm") (some ⟨"m", 0⟩)).2 =
      .error ⟨500, "Failed to create order"⟩ := by
  constructor
  · refine ⟨⟨genOrderNumber 99, "c", [⟨1, 7, none, 1, 10⟩],
      rawSubtotal [⟨1, 7, none, 1, 10⟩],
      rawSubtotal [⟨1, 7, none, 1, 10⟩] * orderTaxRate, ⟨"m", 0⟩,
      rawSubtotal [⟨1, 7, none, 1, 10⟩] +
        rawSubtotal [⟨1, 7, none, 1, 10⟩] * orderTaxRate + 0,
      "pending", "pending", "pm"⟩, ?_, rfl⟩
    simp [createOrder, Store.findCart, Store.createOrderDoc]
  · simp [createOrder, Store.findCart, Store.createOrderDoc, Store.deleteCart,
      genOrderNumber]

/-- C8 (amended): order numbers stored in the system remain pairwise
distinct across any order creation — a creation whose generated
`ORD-<timestamp>` collides with a persisted order fails on the unique
index instead of producing a second order with that number — and the
two status-update operations never change any stored order number. -/
theorem c8_orderNumbers_amended :
    (∀ (st : Store) (now : ℤ) (sid cust pm : Option String)
        (ship : Option Shipping) (st' : Store) (r : Except HErr Order),
      createOrder st now sid cust pm ship = (st', r) →
      st.orders.Pairwise (fun a b => a.orderNumber ≠ b.orderNumber) →
      st'.orders.Pairwise (fun a b => a.orderNumber ≠ b.orderNumber)) ∧
    (∀ (st : Store) (n : String) (s : Option String),
      ((updateOrderStatus st n s).1).orders.map Order.orderNumber =
        st.orders.map Order.orderNumber) ∧
    (∀ (st : Store) (n : String) (p : Option String),
      ((updatePaymentStatus st n p).1).orders.map Order.orderNumber =
        st.orders.map Order.orderNumber) :=
  ⟨createOrder_pairwise, updateOrderStatus_orderNumbers,
    updatePaymentStatus_orderNumbers⟩

theorem c8_orderNumbers_amended_witness :
    ((createOrder ⟨[⟨"a", [⟨1, 7, none, 1, 10⟩], "active", ⟨10, 1, 11⟩, some 0⟩],
        [], []⟩ 99 (some "a") (some "c") (some "pm") (some ⟨"m", 0⟩)).1).orders.Pairwise
      (fun a b => a.orderNumber ≠ b.orderNumber) :=
  c8_orderNumbers_amended.1
    ⟨[⟨"a", [⟨1, 7, none, 1, 10⟩], "active", ⟨10, 1, 11⟩, some 0⟩], [], []⟩
    99 (some "a") (some "c") (some "pm") (some ⟨"m", 0⟩) _ _ rfl (by simp)

/-! ## C1: invariant preservation infrastructure -/

theorem calculateCartTotals_nil : calculateCartTotals [] = ⟨0, 0, 0⟩ := by
  rw [calculateCartTotals_eq]
  have h0 : rawSubtotal [] = 0 := rfl
  rw [h0]
  norm_num [toFixed2_zero]

theorem freshCart_invariant (sid : String) : CartInvariant (freshCart sid) := by
  refine ⟨by simp [freshCart, maxItemsPerCart], by simp [freshCart], ?_⟩
  simp [freshCart, calculateCartTotals_nil]

theorem mergeStep_invariant (items : List CartItem) (si : CartItem)
    (hsi1 : minQuantityPerItem ≤ si.quantity)
    (hsi2 : si.quantity ≤ maxQuantityPerItem)
    (hlen : items.length ≤ maxItemsPerCart)
    (hb : ∀ it ∈ items,
      minQuantityPerItem ≤ it.quantity ∧ it.quantity ≤ maxQuantityPerItem) :
    (mergeStep items si).length ≤ maxItemsPerCart ∧
    ∀ it ∈ mergeStep items si,
      minQuantityPerItem ≤ it.quantity ∧ it.quantity ≤ maxQuantityPerItem := by
  unfold mergeStep
  by_cases hfind : (items.find? (mergeMatches si)).isSome = true
  · rw [if_pos hfind]
    constructor
    · rw [updateFirstMatch_length]
      exact hlen
    · apply updateFirstMatch_forall _ _ _ hb
      intro it hit _
      refine ⟨le_min (le_trans (hb it hit).1 (Nat.le_add_right _ _)) (by decide), ?_⟩
      exact Nat.min_le_right _ _
  · rw [if_neg hfind]
    by_cases hful : maxItemsPerCart ≤ items.length
    · rw [if_pos hful]
      exact ⟨hlen, hb⟩
    · rw [if_neg hful]
      constructor
      · rw [List.length_append]
        simp only [List.length_singleton]
        omega
      · intro it hit
        rcases List.mem_append.mp hit with h1 | h1
        · exact hb it h1
        · rw [List.mem_singleton] at h1
          rw [h1]
          exact ⟨hsi1, hsi2⟩

theorem mergeFold_invariant (src : List CartItem) :
    ∀ init : List CartItem,
      (∀ it ∈ src,
        minQuantityPerItem ≤ it.quantity ∧ it.quantity ≤ maxQuantityPerItem) →
      init.length ≤ maxItemsPerCart →
      (∀ it ∈ init,
        minQuantityPerItem ≤ it.quantity ∧ it.quantity ≤ maxQuantityPerItem) →
      (List.foldl mergeStep init src).length ≤ maxItemsPerCart ∧
      ∀ it ∈ List.foldl mergeStep init src,
        minQuantityPerItem ≤ it.quantity ∧ it.quantity ≤ maxQuantityPerItem := by
  induction src with
  | nil =>
    intro init _ h1 h2
    exact ⟨h1, h2⟩
  | cons a t ih =>
    intro init hsrc h1 h2
    simp only [List.foldl]
    have hstep := mergeStep_invariant init a (hsrc a (by simp)).1
      (hsrc a (by simp)).2 h1 h2
    exact ih _ (fun it hit => hsrc it (by simp [hit])) hstep.1 hstep.2

theorem StoreInvariant.saveCart {st : Store} {c' : Cart}
    (h : StoreInvariant st) (hc : CartInvariant c') :
    StoreInvariant (st.saveCart c') := by
  intro c hcmem
  unfold Store.saveCart at hcmem
  rcases List.mem_map.mp hcmem with ⟨a, ha, hfa⟩
  by_cases hb : (a.sessionId == c'.sessionId) = true
  · rw [if_pos hb] at hfa
    rw [← hfa]
    exact hc
  · rw [if_neg hb] at hfa
    rw [← hfa]
    exact h a ha

theorem StoreInvariant.updateCartFields {st : Store} {sid : String}
    {f : Cart → Cart} (h : StoreInvariant st)
    (hf : ∀ c, CartInvariant c → CartInvariant (f c)) :
    StoreInvariant (st.updateCartFields sid f) := by
  intro c hcmem
  unfold Store.updateCartFields at hcmem
  rcases List.mem_map.mp hcmem with ⟨a, ha, hfa⟩
  by_cases hb : (a.sessionId == sid) = true
  · rw [if_pos hb] at hfa
    rw [← hfa]
    exact hf a (h a ha)
  · rw [if_neg hb] at hfa
    rw [← hfa]
    exact h a ha

theorem addCartItem_invariant (st : Store) (now : ℤ) (sid : String)
    (pid : Option Nat) (q : Nat) (vid : Option Nat) (st' : Store) (c : Cart)
    (hsi : StoreInvariant st)
    (h : addCartItem st now sid pid q vid = (st', .ok c)) :
    CartInvariant c ∧ StoreInvariant st' := by
  unfold addCartItem at h
  split at h
  · simp at h
  · rename_i pid'
    split at h
    · simp at h
    · rename_i hq
      simp only [Bool.or_eq_true, decide_eq_true_eq, not_or, Nat.not_lt] at hq
      split at h
      · simp at h
      · rename_i cart hcart
        unfold Store.findCart at hcart
        have hcmem : cart ∈ st.carts := List.mem_of_find?_eq_some hcart
        have hcinv := hsi cart hcmem
        split at h
        · simp at h
        · split at h
          · simp at h
          · split at h
            · simp at h
            · rename_i hlen
              split at h
              · simp at h
              · rename_i product hprod
                split at h
                · simp at h
                · dsimp only at h
                  split at h
                  · simp at h
                  · split at h
                    · rename_i item hfind
                      split at h
                      · simp at h
                      · rename_i hover
                        rw [Nat.not_lt] at hover
                        injection h with h1 h2
                        injection h2 with h2
                        have hupd : CartInvariant
                            { cart with
                              items := updateFirstMatch (addMatches pid' vid)
                                (fun it => { it with quantity := item.quantity + q })
                                cart.items
                              totals := calculateCartTotals
                                (updateFirstMatch (addMatches pid' vid)
                                  (fun it => { it with quantity := item.quantity + q })
                                  cart.items)
                              updatedAt := some now } := by
                          refine ⟨?_, ?_, rfl⟩
                          · show (updateFirstMatch _ _ cart.items).length ≤ _
                            rw [updateFirstMatch_length]
                            exact hcinv.1
                          · apply updateFirstMatch_forall _ _ _ hcinv.2.1
                            intro it hit _
                            exact ⟨le_trans hq.1 (Nat.le_add_left _ _), hover⟩
                        exact ⟨h2 ▸ hupd, h1 ▸ hsi.saveCart hupd⟩
                    · rename_i hfind
                      injection h with h1 h2
                      injection h2 with h2
                      have hupd : CartInvariant
                          { cart with
                            items := cart.items ++
                              [{ id := freshItemId cart.items, product := pid'
                                 variant := vid, quantity := q
                                 price := product.price }]
                            totals := calculateCartTotals (cart.items ++
                              [{ id := freshItemId cart.items, product := pid'
                                 variant := vid, quantity := q
                                 price := product.price }])
                            updatedAt := some now } := by
                        refine ⟨?_, ?_, rfl⟩
                        · show (cart.items ++ _).length ≤ _
                          rw [List.length_append]
                          simp only [List.length_singleton]
                          omega
                        · intro it hit
                          rcases List.mem_append.mp hit with h1 | h1
                          · exact hcinv.2.1 it h1
                          · rw [List.mem_singleton] at h1
                            rw [h1]
                            exact ⟨hq.1, hq.2⟩
                      exact ⟨h2 ▸ hupd, h1 ▸ hsi.saveCart hupd⟩

theorem storeInvariant_append {st : Store} {c : Cart}
    (h : StoreInvariant st) (hc : CartInvariant c) :
    StoreInvariant
      { carts := st.carts ++ [c], orders := st.orders, products := st.products } := by
  intro c0 hc0
  rcases List.mem_append.mp hc0 with h1 | h1
  · exact h c0 h1
  · rw [List.mem_singleton] at h1
    rw [h1]
    exact hc

theorem createCart_invariant (st : Store) (now : ℤ) (sid : Option String)
    (st' : Store) (c : Cart) (hsi : StoreInvariant st)
    (h : createCart st now sid = (st', .ok c)) :
    CartInvariant c ∧ StoreInvariant st' := by
  unfold createCart Store.createCartDoc at h
  split at h
  · simp at h
  · rename_i sid'
    split at h
    · split at h
      · dsimp only at h
        split at h
        · simp at h
        · rename_i st2 hd
          injection h with h1 h2
          injection h2 with h2
          have hst1 : StoreInvariant
              (st.updateCartFields sid'
                (fun c => { c with status := "expired", updatedAt := some now })) :=
            hsi.updateCartFields (fun c0 hc0 => hc0)
          have hst2 : StoreInvariant st2 := by
            by_cases hany : ((st.updateCartFields sid'
                (fun c => { c with status := "expired", updatedAt := some now })).carts.any
                (fun c => c.sessionId == (freshCart sid').sessionId)) = true
            · rw [if_pos hany] at hd
              exact absurd hd (by simp)
            · rw [if_neg hany] at hd
              injection hd with hd
              rw [← hd]
              exact storeInvariant_append hst1 (freshCart_invariant sid')
          exact ⟨h2 ▸ freshCart_invariant sid', h1 ▸ hst2⟩
      · simp at h
    · split at h
      · simp at h
      · rename_i st2 hd
        injection h with h1 h2
        injection h2 with h2
        have hst2 : StoreInvariant st2 := by
          by_cases hany : (st.carts.any
              (fun c => c.sessionId == (freshCart sid').sessionId)) = true
          · rw [if_pos hany] at hd
            exact absurd hd (by simp)
          · rw [if_neg hany] at hd
            injection hd with hd
            rw [← hd]
            exact storeInvariant_append hsi (freshCart_invariant sid')
        exact ⟨h2 ▸ freshCart_invariant sid', h1 ▸ hst2⟩

theorem updateCartItem_invariant (st : Store) (now : ℤ) (sid : String)
    (itemId : Nat) (q : Nat) (st' : Store) (c : Cart)
    (hsi : StoreInvariant st)
    (h : updateCartItem st now sid itemId q = (st', .ok c)) :
    CartInvariant c ∧ StoreInvariant st' := by
  unfold updateCartItem at h
  split at h
  · simp at h
  · rename_i hq
    simp only [Bool.or_eq_true, decide_eq_true_eq, not_or, Nat.not_lt] at hq
    split at h
    · simp at h
    · rename_i cart hcart
      unfold Store.findCart at hcart
      have hcinv := hsi cart (List.mem_of_find?_eq_some hcart)
      split at h
      · simp at h
      · split at h
        · simp at h
        · split at h
          · simp at h
          · rename_i cartItem hfind
            split at h
            · simp at h
            · rename_i product hprod
              split at h
              · simp at h
              · dsimp only at h
                split at h
                · simp at h
                · injection h with h1 h2
                  injection h2 with h2
                  have hupd : CartInvariant
                      { cart with
                        items := updateFirstMatch (fun it => it.id == itemId)
                          (fun it => { it with quantity := q }) cart.items
                        totals := calculateCartTotals
                          (updateFirstMatch (fun it => it.id == itemId)
                            (fun it => { it with quantity := q }) cart.items)
                        updatedAt := some now } := by
                    refine ⟨?_, ?_, rfl⟩
                    · show (updateFirstMatch _ _ cart.items).length ≤ _
                      rw [updateFirstMatch_length]
                      exact hcinv.1
                    · apply updateFirstMatch_forall _ _ _ hcinv.2.1
                      intro it hit _
                      exact ⟨hq.1, hq.2⟩
                  exact ⟨h2 ▸ hupd, h1 ▸ hsi.saveCart hupd⟩

theorem removeCartItem_invariant (st : Store) (now : ℤ) (sid : String)
    (itemId : Nat) (st' : Store) (c : Cart)
    (hsi : StoreInvariant st)
    (h : removeCartItem st now sid itemId = (st', .ok c)) :
    CartInvariant c ∧ StoreInvariant st' := by
  unfold removeCartItem at h
  split at h
  · simp at h
  · rename_i cart hcart
    unfold Store.findCart at hcart
    have hcinv := hsi cart (List.mem_of_find?_eq_some hcart)
    split at h
    · simp at h
    · split at h
      · simp at h
      · split at h
        · simp at h
        · injection h with h1 h2
          injection h2 with h2
          have hupd : CartInvariant
              { cart with
                items := cart.items.eraseP (fun it => it.id == itemId)
                totals := calculateCartTotals
                  (cart.items.eraseP (fun it => it.id == itemId))
                updatedAt := some now } := by
            refine ⟨?_, ?_, rfl⟩
            · show (cart.items.eraseP _).length ≤ _
              exact le_trans (List.length_eraseP_le _) hcinv.1
            · intro it hit
              exact hcinv.2.1 it (List.mem_of_mem_eraseP hit)
          exact ⟨h2 ▸ hupd, h1 ▸ hsi.saveCart hupd⟩

theorem clearCart_invariant (st : Store) (now : ℤ) (sid : String)
    (st' : Store) (c : Cart) (hsi : StoreInvariant st)
    (h : clearCart st now sid = (st', .ok c)) :
    CartInvariant c ∧ StoreInvariant st' := by
  unfold clearCart at h
  split at h
  · simp at h
  · rename_i cart hcart
    split at h
    · simp at h
    · split at h
      · simp at h
      · injection h with h1 h2
        injection h2 with h2
        have hupd : CartInvariant
            { cart with
              items := []
              totals := { subtotal := 0, tax := 0, total := 0 }
              updatedAt := some now } := by
          refine ⟨by simp [maxItemsPerCart], by simp, ?_⟩
          show ({ subtotal := 0, tax := 0, total := 0 } : Totals) =
            calculateCartTotals []
          rw [calculateCartTotals_nil]
        exact ⟨h2 ▸ hupd, h1 ▸ hsi.saveCart hupd⟩

theorem mergeCarts_invariant (st : Store) (now : ℤ)
    (src tgt : Option String) (st' : Store) (c : Cart)
    (hsi : StoreInvariant st)
    (h : mergeCarts st now src tgt = (st', .ok c)) :
    CartInvariant c ∧ StoreInvariant st' := by
  unfold mergeCarts at h
  split at h
  · split at h
    · rename_i sc tc hsc htc
      dsimp only at h
      injection h with h1 h2
      injection h2 with h2
      unfold Store.findActiveCart at hsc htc
      have hsinv := hsi sc (List.mem_of_find?_eq_some hsc)
      have htinv := hsi tc (List.mem_of_find?_eq_some htc)
      have hfold := mergeFold_invariant sc.items tc.items hsinv.2.1
        htinv.1 htinv.2.1
      have hupd : CartInvariant
          { tc with
            items := List.foldl mergeStep tc.items sc.items
            totals := calculateCartTotals (List.foldl mergeStep tc.items sc.items)
            updatedAt := some now } := ⟨hfold.1, hfold.2, rfl⟩
      refine ⟨h2 ▸ hupd, h1 ▸ ?_⟩
      exact (hsi.saveCart hupd).updateCartFields (fun c0 hc0 => hc0)
    · simp at h
  · simp at h

/-- C1: starting from a store whose carts all satisfy the rest
invariant (at most 50 items, quantities between 1 and 10, stored totals
equal to the totals calculator on the items), every successfully
completed Create, AddItem, UpdateItemQuantity, RemoveItem, Clear or
Merge yields a cart satisfying the invariant, and the whole store keeps
satisfying it. -/
theorem c1_cartInvariants :
    (∀ (st : Store) (now : ℤ) (sid : Option String) (st' : Store) (c : Cart),
      StoreInvariant st → createCart st now sid = (st', .ok c) →
      CartInvariant c ∧ StoreInvariant st') ∧
    (∀ (st : Store) (now : ℤ) (sid : String) (pid : Option Nat) (q : Nat)
        (vid : Option Nat) (st' : Store) (c : Cart),
      StoreInvariant st → addCartItem st now sid pid q vid = (st', .ok c) →
      CartInvariant c ∧ StoreInvariant st') ∧
    (∀ (st : Store) (now : ℤ) (sid : String) (itemId q : Nat)
        (st' : Store) (c : Cart),
      StoreInvariant st → updateCartItem st now sid itemId q = (st', .ok c) →
      CartInvariant c ∧ StoreInvariant st') ∧
    (∀ (st : Store) (now : ℤ) (sid : String) (itemId : Nat)
        (st' : Store) (c : Cart),
      StoreInvariant st → removeCartItem st now sid itemId = (st', .ok c) →
      CartInvariant c ∧ StoreInvariant st') ∧
    (∀ (st : Store) (now : ℤ) (sid : String) (st' : Store) (c : Cart),
      StoreInvariant st → clearCart st now sid = (st', .ok c) →
      CartInvariant c ∧ StoreInvariant st') ∧
    (∀ (st : Store) (now : ℤ) (src tgt : Option String)
        (st' : Store) (c : Cart),
      StoreInvariant st → mergeCarts st now src tgt = (st', .ok c) →
      CartInvariant c ∧ StoreInvariant st') :=
  ⟨fun st now sid st' c hsi h => createCart_invariant st now sid st' c hsi h,
    fun st now sid pid q vid st' c hsi h =>
      addCartItem_invariant st now sid pid q vid st' c hsi h,
    fun st now sid itemId q st' c hsi h =>
      updateCartItem_invariant st now sid itemId q st' c hsi h,
    fun st now sid itemId st' c hsi h =>
      removeCartItem_invariant st now sid itemId st' c hsi h,
    fun st now sid st' c hsi h => clearCart_invariant st now sid st' c hsi h,
    fun st now src tgt st' c hsi h =>
      mergeCarts_invariant st now src tgt st' c hsi h⟩

theorem c1_cartInvariants_witness :
    CartInvariant (freshCart "s") ∧
      StoreInvariant ⟨[freshCart "s"], [], []⟩ :=
  c1_cartInvariants.1 ⟨[], [], []⟩ 0 (some "s") ⟨[freshCart "s"], [], []⟩
    (freshCart "s")
    (fun c hc => absurd hc (List.not_mem_nil c))
    (by simp [createCart, Store.findCart, Store.createCartDoc])
